import Mathlib

/-!
Verification of the plate-reader front end (`pylabrobot/plate_reading/plate_reader.py`):
the carrier slot manager, the keyword-argument reconciler `_check_args`, and the façade
read operations that compose them around a swappable backend.
-/

namespace PlateReading

/-- Parameter kinds of a Python callable signature (`inspect.Parameter.kind`). -/
inductive ParamKind where
  | positionalOnly
  | positionalOrKeyword
  | varPositional
  | keywordOnly
  | varKeyword
deriving DecidableEq, Repr

/-- One formal parameter of a backend method: its name, kind, and whether it carries a
default value (`param.default != inspect.Parameter.empty`). -/
structure Param where
  name : String
  kind : ParamKind
  hasDefault : Bool
deriving DecidableEq, Repr

/-- A backend method signature: the ordered parameter list `inspect.signature(method).parameters`. -/
structure Signature where
  params : List Param
deriving DecidableEq, Repr

/-- Names of the variadic-keyword parameters of a signature: the set `vars_keyword`
computed in `_check_args` over the full parameter list. -/
def Signature.varsKeyword (sig : Signature) : Finset String :=
  ((sig.params.filter (fun p => decide (p.kind = ParamKind.varKeyword))).map Param.name).toFinset

/-- The `args` dictionary of `_check_args` after both filters: parameters whose name is not
in `default ∪ \x7b"self"\x7d` and whose kind is not variadic positional or variadic keyword. -/
def Signature.declaredArgs (sig : Signature) (dflt : Finset String) : List Param :=
  (sig.params.filter (fun p => decide (p.name ∉ dflt ∪ ({"self"} : Finset String)))).filter
    (fun p => decide (p.kind ≠ ParamKind.varPositional ∧ p.kind ≠ ParamKind.varKeyword))

/-- The key set of `args` in `_check_args`: declared parameter names visible to the extra check. -/
def Signature.declaredNames (sig : Signature) (dflt : Finset String) : Finset String :=
  ((sig.declaredArgs dflt).map Param.name).toFinset

/-- The `non_default` set of `_check_args`: declared parameters with no default value. -/
def Signature.requiredParams (sig : Signature) (dflt : Finset String) : Finset String :=
  (((sig.declaredArgs dflt).filter (fun p => !p.hasDefault)).map Param.name).toFinset

/-- Error kinds raised by the front end.  `typeErrorMissing` and `typeErrorUnexpected` are
the two `TypeError`s of `_check_args`, carrying the named parameter sets;
`typeErrorMultipleValues` is the interpreter's
`TypeError: got multiple values for keyword argument ...` raised at a forwarding call when
a still-present caller kwarg collides with an explicitly passed keyword; `valueError`
carries the message of the two `ValueError`s of `assign_child_resource`; `noPlateError`
is `NoPlateError`; `lifecycleNotReady` stands for the failure of the external
`need_setup_finished` lifecycle guard. -/
inductive PRError where
  | typeErrorMissing (names : Finset String)
  | typeErrorUnexpected (names : Finset String)
  | typeErrorMultipleValues (name : String)
  | valueError (msg : String)
  | noPlateError (msg : String)
  | lifecycleNotReady
deriving DecidableEq

/-- `PlateReader._check_args(method, backend_kwargs, default)`: validates the caller's extra
keyword argument keys against `method`'s declared signature, raising `TypeError` on missing
required arguments, then (when the signature has no variadic-keyword parameter) on
unexpected keys; returns the set of keys to drop before forwarding. -/
def check_args (sig : Signature) (dflt : Finset String) (backendKwargKeys : List String) :
    Except PRError (Finset String) :=
  let backendKws := backendKwargKeys.toFinset
  let missing := sig.requiredParams dflt \ backendKws
  if missing ≠ ∅ then
    Except.error (PRError.typeErrorMissing missing)
  else if sig.varsKeyword ≠ ∅ then
    Except.ok ∅
  else
    let extra := backendKws \ sig.declaredNames dflt
    if extra ≠ ∅ then
      Except.error (PRError.typeErrorUnexpected extra)
    else
      Except.ok extra

/-- A resource in the container hierarchy: a `Plate` (the accepted carrier type) or any
other resource kind. -/
inductive Resource where
  | plate (name : String)
  | other (name : String)
deriving DecidableEq, Repr

/-- `isinstance(resource, Plate)`. -/
def Resource.isPlate : Resource → Bool
  | Resource.plate _ => true
  | Resource.other _ => false

/-- Caller-supplied extra keyword arguments (`**backend_kwargs`), as an association list in
iteration order; values are opaque. -/
abbrev Kwargs := List (String × Int)

/-- One invocation of a backend method, recording exactly the arguments forwarded. -/
inductive BackendCall where
  | openCall
  | closeCall
  | readLuminescence (focalHeight : Rat) (plate : Resource) (kwargs : Kwargs)
  | readAbsorbance (wavelength : Int) (plate : Resource) (kwargs : Kwargs)
  | readFluorescence (excitationWavelength : Int) (emissionWavelength : Int)
      (focalHeight : Rat) (plate : Resource) (kwargs : Kwargs)
deriving DecidableEq

/-- Modelled from the spec: the Backend Capability Interface (`PlateReaderBackend`, not under
`src/`) — each backend declares its own signature per read method and performs the device
communication, returning the well grid as an ordered sequence of rows of numeric readings. -/
structure Backend where
  readLuminescenceSig : Signature
  readAbsorbanceSig : Signature
  readFluorescenceSig : Signature
  run : BackendCall → List (List Rat)

/-- The façade state: the container's children (the carrier slot), the lifecycle flag of the
external `Machine` base, and the installed backend. -/
structure PlateReader where
  children : List Resource
  setupFinished : Bool
  backend : Backend

/-- Modelled from the spec: the `need_setup_finished` lifecycle guard (from
`pylabrobot.machines.machine`, not under `src/`) fails the call before it starts when the
instrument has not completed setup. -/
def needSetupFinishedGuard (pr : PlateReader) : Option PRError :=
  if pr.setupFinished then none else some PRError.lifecycleNotReady

/-- Modelled from the spec: the generic multi-child container assignment
(`Resource.assign_child_resource` via `ResourceHolder`, not under `src/`) stores the resource
as a new child ("otherwise stores the carrier and returns success"). -/
def storeChild (pr : PlateReader) (r : Resource) : PlateReader :=
  { pr with children := pr.children ++ [r] }

/-- `PlateReader.assign_child_resource`: refuses a second child, refuses non-`Plate`
resources, otherwise defers to the generic container assignment. -/
def PlateReader.assign_child_resource (pr : PlateReader) (resource : Resource) :
    Except PRError PlateReader :=
  if 1 ≤ pr.children.length then
    Except.error (PRError.valueError "There already is a plate in the plate reader.")
  else if !resource.isPlate then
    Except.error (PRError.valueError "The resource must be a Plate.")
  else
    Except.ok (storeChild pr resource)

/-- Exception semantics of `assign_child_resource` as a state transition: a raise propagates
to the caller and, since both raises occur before any mutation, leaves the state unchanged. -/
def PlateReader.assignRun (pr : PlateReader) (r : Resource) : PlateReader × Option PRError :=
  match pr.assign_child_resource r with
  | Except.ok pr2 => (pr2, none)
  | Except.error e => (pr, some e)

/-- `PlateReader.get_plate`: the current carrier, or `NoPlateError` when the slot is empty. -/
def PlateReader.get_plate (pr : PlateReader) : Except PRError Resource :=
  match pr.children with
  | [] => Except.error (PRError.noPlateError "There is no plate in the plate reader.")
  | c :: _ => Except.ok c

/-- `PlateReader.open`: a pure pass-through awaiting `self.backend.open()` — no lifecycle
guard, no carrier fetch, no argument reconciliation.  (`open` is a Lean keyword, hence
`openOp`.)  The result is paired with the list of backend invocations the call performs. -/
def PlateReader.openOp (_pr : PlateReader) : Except PRError Unit × List BackendCall :=
  (Except.ok (), [BackendCall.openCall])

/-- `PlateReader.close`: a pure pass-through awaiting `self.backend.close()`. -/
def PlateReader.closeOp (_pr : PlateReader) : Except PRError Unit × List BackendCall :=
  (Except.ok (), [BackendCall.closeCall])

/-- Python call binding at a forwarding call such as
`self.backend.read_luminescence(focal_height=focal_height, plate=plate, **backend_kwargs)`:
if the unpacked kwargs still hold a key the call also passes explicitly, the call expression
itself raises `TypeError: got multiple values for keyword argument ...` at the first such
key, and the callee is never entered.  Returns that key, or `none` when the call binds. -/
def duplicateKeyword (explicitKws : Finset String) (kwargs : Kwargs) : Option String :=
  (kwargs.map Prod.fst).find? (fun k => decide (k ∈ explicitKws))

/-- `PlateReader.read_luminescence` under the `need_setup_finished` guard: fetch the plate,
reconcile the caller's extra kwargs against the backend's `read_luminescence` signature with
always-supplied set `\x7b"focal_height", "plate"\x7d`, pop the returned drop set from the
kwargs, and forward one backend call, returning the backend's result verbatim.  The
forwarding call passes `focal_height` and `plate` explicitly, so a surviving caller kwarg
with either name makes the call expression raise the duplicate-keyword `TypeError` before
the backend is invoked. -/
def PlateReader.read_luminescence (pr : PlateReader) (focalHeight : Rat)
    (backendKwargs : Kwargs) : Except PRError (List (List Rat)) × List BackendCall :=
  match needSetupFinishedGuard pr with
  | some e => (Except.error e, [])
  | none =>
    match pr.get_plate with
    | Except.error e => (Except.error e, [])
    | Except.ok plate =>
      match check_args pr.backend.readLuminescenceSig
          ({"focal_height", "plate"} : Finset String) (backendKwargs.map Prod.fst) with
      | Except.error e => (Except.error e, [])
      | Except.ok extraArgs =>
        let kwargs := backendKwargs.filter (fun kv => decide (kv.1 ∉ extraArgs))
        match duplicateKeyword ({"focal_height", "plate"} : Finset String) kwargs with
        | some k => (Except.error (PRError.typeErrorMultipleValues k), [])
        | none =>
          let call := BackendCall.readLuminescence focalHeight plate kwargs
          (Except.ok (pr.backend.run call), [call])

/-- `PlateReader.read_absorbance` under the `need_setup_finished` guard, with always-supplied
set `\x7b"wavelength", "plate"\x7d`; the forwarding call passes `wavelength` and `plate`
explicitly, with the same duplicate-keyword binding rule. -/
def PlateReader.read_absorbance (pr : PlateReader) (wavelength : Int)
    (backendKwargs : Kwargs) : Except PRError (List (List Rat)) × List BackendCall :=
  match needSetupFinishedGuard pr with
  | some e => (Except.error e, [])
  | none =>
    match pr.get_plate with
    | Except.error e => (Except.error e, [])
    | Except.ok plate =>
      match check_args pr.backend.readAbsorbanceSig
          ({"wavelength", "plate"} : Finset String) (backendKwargs.map Prod.fst) with
      | Except.error e => (Except.error e, [])
      | Except.ok extraArgs =>
        let kwargs := backendKwargs.filter (fun kv => decide (kv.1 ∉ extraArgs))
        match duplicateKeyword ({"wavelength", "plate"} : Finset String) kwargs with
        | some k => (Except.error (PRError.typeErrorMultipleValues k), [])
        | none =>
          let call := BackendCall.readAbsorbance wavelength plate kwargs
          (Except.ok (pr.backend.run call), [call])

/-- `PlateReader.read_fluorescence` under the `need_setup_finished` guard, with
always-supplied set `\x7b"excitation_wavelength", "emission_wavelength", "focal_height",
"plate"\x7d`; the forwarding call passes all four explicitly, with the same
duplicate-keyword binding rule. -/
def PlateReader.read_fluorescence (pr : PlateReader) (excitationWavelength : Int)
    (emissionWavelength : Int) (focalHeight : Rat) (backendKwargs : Kwargs) :
    Except PRError (List (List Rat)) × List BackendCall :=
  match needSetupFinishedGuard pr with
  | some e => (Except.error e, [])
  | none =>
    match pr.get_plate with
    | Except.error e => (Except.error e, [])
    | Except.ok plate =>
      match check_args pr.backend.readFluorescenceSig
          ({"excitation_wavelength", "emission_wavelength", "focal_height", "plate"} :
            Finset String) (backendKwargs.map Prod.fst) with
      | Except.error e => (Except.error e, [])
      | Except.ok extraArgs =>
        let kwargs := backendKwargs.filter (fun kv => decide (kv.1 ∉ extraArgs))
        match duplicateKeyword
            ({"excitation_wavelength", "emission_wavelength", "focal_height", "plate"} :
              Finset String) kwargs with
        | some k => (Except.error (PRError.typeErrorMultipleValues k), [])
        | none =>
          let call := BackendCall.readFluorescence excitationWavelength emissionWavelength
            focalHeight plate kwargs
          (Except.ok (pr.backend.run call), [call])

deriving instance DecidableEq for Except

/-- One façade operation, for reasoning about operation sequences. -/
inductive FacadeOp where
  | assign (r : Resource)
  | queryPlate
  | openDoor
  | closeDoor
  | readLum (focalHeight : Rat) (kwargs : Kwargs)
  | readAbs (wavelength : Int) (kwargs : Kwargs)
  | readFluor (excitationWavelength emissionWavelength : Int) (focalHeight : Rat)
      (kwargs : Kwargs)

/-- The façade state after one operation.  Only `assign_child_resource` writes `children`;
`get_plate`, `open`, `close` and the three read operations only read state and call the
backend, so the state they leave is the state they received. -/
def stepOp (pr : PlateReader) (op : FacadeOp) : PlateReader :=
  match op with
  | FacadeOp.assign r => (pr.assignRun r).1
  | FacadeOp.queryPlate => pr
  | FacadeOp.openDoor => pr
  | FacadeOp.closeDoor => pr
  | FacadeOp.readLum _ _ => pr
  | FacadeOp.readAbs _ _ => pr
  | FacadeOp.readFluor _ _ _ _ => pr

end PlateReading

/-! ### Example backends and states, used to instantiate the theorems below -/

namespace PlateReading

/-- A backend `read_absorbance` signature declaring exactly the always-supplied parameters. -/
def sigAbsEx : Signature :=
  ⟨[⟨"self", ParamKind.positionalOrKeyword, false⟩,
    ⟨"wavelength", ParamKind.positionalOrKeyword, false⟩,
    ⟨"plate", ParamKind.positionalOrKeyword, false⟩]⟩

/-- A backend `read_luminescence` signature with a variadic-keyword parameter. -/
def sigKwEx : Signature :=
  ⟨[⟨"self", ParamKind.positionalOrKeyword, false⟩,
    ⟨"focal_height", ParamKind.positionalOrKeyword, false⟩,
    ⟨"plate", ParamKind.positionalOrKeyword, false⟩,
    ⟨"kwargs", ParamKind.varKeyword, false⟩]⟩

/-- A backend `read_absorbance` signature with an additional required parameter `mode`. -/
def sigReqEx : Signature :=
  ⟨[⟨"self", ParamKind.positionalOrKeyword, false⟩,
    ⟨"wavelength", ParamKind.positionalOrKeyword, false⟩,
    ⟨"plate", ParamKind.positionalOrKeyword, false⟩,
    ⟨"mode", ParamKind.positionalOrKeyword, false⟩]⟩

/-- A backend `read_absorbance` signature with a variadic-keyword parameter. -/
def sigAbsKwEx : Signature :=
  ⟨[⟨"self", ParamKind.positionalOrKeyword, false⟩,
    ⟨"wavelength", ParamKind.positionalOrKeyword, false⟩,
    ⟨"plate", ParamKind.positionalOrKeyword, false⟩,
    ⟨"kwargs", ParamKind.varKeyword, false⟩]⟩

/-- An example backend. -/
def backendEx : Backend where
  readLuminescenceSig := sigKwEx
  readAbsorbanceSig := sigAbsEx
  readFluorescenceSig := sigKwEx
  run := fun _ => [[1, 2], [3, 4]]

/-- An example backend whose `read_absorbance` requires the extra parameter `mode`. -/
def backendReqEx : Backend where
  readLuminescenceSig := sigKwEx
  readAbsorbanceSig := sigReqEx
  readFluorescenceSig := sigKwEx
  run := fun _ => [[1, 2], [3, 4]]

/-- An example backend accepting unbounded extras on every read method. -/
def backendKwEx : Backend where
  readLuminescenceSig := sigKwEx
  readAbsorbanceSig := sigAbsKwEx
  readFluorescenceSig := sigKwEx
  run := fun _ => [[1, 2], [3, 4]]

/-- A set-up plate reader with an empty slot. -/
def prEmptyEx : PlateReader :=
  { children := [], setupFinished := true, backend := backendEx }

/-- A set-up plate reader holding one plate, over the unbounded-extras backend. -/
def prKwEx : PlateReader :=
  { children := [Resource.plate "p"], setupFinished := true, backend := backendKwEx }

/-- A set-up plate reader holding one plate. -/
def prFullEx : PlateReader :=
  { children := [Resource.plate "p"], setupFinished := true, backend := backendEx }

/-- A set-up plate reader holding one plate, over the `mode`-requiring backend. -/
def prReqEx : PlateReader :=
  { children := [Resource.plate "p"], setupFinished := true, backend := backendReqEx }

/-- A concrete operation sequence: a double assignment, a read, a query, door operations,
and a rejected non-plate assignment. -/
def opsEx : List FacadeOp :=
  [FacadeOp.assign (Resource.plate "a"), FacadeOp.assign (Resource.plate "b"),
    FacadeOp.readAbs 450 [], FacadeOp.queryPlate, FacadeOp.openDoor,
    FacadeOp.assign (Resource.other "lid"), FacadeOp.closeDoor]

/-! ### Characterization of `_check_args` -/

/-- `_check_args` yields the missing-required-arguments `TypeError` exactly when some
declared no-default parameter is absent from the caller's keys, and then names exactly
the absent ones. -/
theorem check_args_missing_iff (sig : Signature) (dflt : Finset String) (kws : List String)
    (m : Finset String) :
    check_args sig dflt kws = Except.error (PRError.typeErrorMissing m) ↔
      (m = sig.requiredParams dflt \ kws.toFinset ∧
        sig.requiredParams dflt \ kws.toFinset ≠ ∅) := by
  simp only [check_args]
  split_ifs with h1 h2 h3 <;> simp_all [eq_comm]

/-- `_check_args` yields the unexpected-keyword-arguments `TypeError` exactly when no
required parameter is missing, the signature has no variadic-keyword parameter, and some
caller key falls outside the declared names; it then names exactly the outside keys. -/
theorem check_args_unexpected_iff (sig : Signature) (dflt : Finset String) (kws : List String)
    (u : Finset String) :
    check_args sig dflt kws = Except.error (PRError.typeErrorUnexpected u) ↔
      (sig.requiredParams dflt \ kws.toFinset = ∅ ∧ sig.varsKeyword = ∅ ∧
        u = kws.toFinset \ sig.declaredNames dflt ∧
        kws.toFinset \ sig.declaredNames dflt ≠ ∅) := by
  simp only [check_args]
  split_ifs with h1 h2 h3 <;> simp_all [eq_comm]

/-- `_check_args` succeeds exactly when no required parameter is missing and either the
signature has a variadic-keyword parameter or no caller key is unrecognized; the returned
drop set is then always empty. -/
theorem check_args_ok_iff (sig : Signature) (dflt : Finset String) (kws : List String)
    (e : Finset String) :
    check_args sig dflt kws = Except.ok e ↔
      (sig.requiredParams dflt \ kws.toFinset = ∅ ∧ e = ∅ ∧
        (sig.varsKeyword ≠ ∅ ∨ kws.toFinset \ sig.declaredNames dflt = ∅)) := by
  simp only [check_args]
  split_ifs with h1 h2 h3 <;> simp_all [eq_comm]


/-- A successful `_check_args` always returns the empty drop set. -/
theorem check_args_ok_empty (sig : Signature) (dflt : Finset String) (kws : List String)
    (e : Finset String) (h : check_args sig dflt kws = Except.ok e) : e = ∅ :=
  ((check_args_ok_iff sig dflt kws e).mp h).2.1

/-! ### Reduction of the façade read operations -/

/-- A read operation invoked while the slot is empty fails with `NoPlateError` and performs
no backend call, whatever the caller's keyword arguments. -/
theorem read_absorbance_no_plate (pr : PlateReader) (w : Int) (k : Kwargs)
    (hs : pr.setupFinished = true) (hc : pr.children = []) :
    pr.read_absorbance w k =
      (Except.error (PRError.noPlateError "There is no plate in the plate reader."), []) := by
  simp [PlateReader.read_absorbance, needSetupFinishedGuard, hs, PlateReader.get_plate, hc]

/-- `read_luminescence` on an empty slot: `NoPlateError`, no backend call. -/
theorem read_luminescence_no_plate (pr : PlateReader) (fh : Rat) (k : Kwargs)
    (hs : pr.setupFinished = true) (hc : pr.children = []) :
    pr.read_luminescence fh k =
      (Except.error (PRError.noPlateError "There is no plate in the plate reader."), []) := by
  simp [PlateReader.read_luminescence, needSetupFinishedGuard, hs, PlateReader.get_plate, hc]

/-- `read_fluorescence` on an empty slot: `NoPlateError`, no backend call. -/
theorem read_fluorescence_no_plate (pr : PlateReader) (exw emw : Int) (fh : Rat) (k : Kwargs)
    (hs : pr.setupFinished = true) (hc : pr.children = []) :
    pr.read_fluorescence exw emw fh k =
      (Except.error (PRError.noPlateError "There is no plate in the plate reader."), []) := by
  simp [PlateReader.read_fluorescence, needSetupFinishedGuard, hs, PlateReader.get_plate, hc]

/-- When reconciliation raises, `read_absorbance` propagates the error without any backend
call. -/
theorem read_absorbance_check_error (pr : PlateReader) (p : Resource) (rest : List Resource)
    (w : Int) (k : Kwargs) (er : PRError)
    (hs : pr.setupFinished = true) (hc : pr.children = p :: rest)
    (hchk : check_args pr.backend.readAbsorbanceSig ({"wavelength", "plate"} : Finset String)
      (k.map Prod.fst) = Except.error er) :
    pr.read_absorbance w k = (Except.error er, []) := by
  simp [PlateReader.read_absorbance, needSetupFinishedGuard, hs, PlateReader.get_plate, hc,
    hchk]

/-- When reconciliation raises, `read_luminescence` propagates the error without any backend
call. -/
theorem read_luminescence_check_error (pr : PlateReader) (p : Resource) (rest : List Resource)
    (fh : Rat) (k : Kwargs) (er : PRError)
    (hs : pr.setupFinished = true) (hc : pr.children = p :: rest)
    (hchk : check_args pr.backend.readLuminescenceSig
      ({"focal_height", "plate"} : Finset String) (k.map Prod.fst) = Except.error er) :
    pr.read_luminescence fh k = (Except.error er, []) := by
  simp [PlateReader.read_luminescence, needSetupFinishedGuard, hs, PlateReader.get_plate, hc,
    hchk]

/-- When reconciliation raises, `read_fluorescence` propagates the error without any backend
call. -/
theorem read_fluorescence_check_error (pr : PlateReader) (p : Resource) (rest : List Resource)
    (exw emw : Int) (fh : Rat) (k : Kwargs) (er : PRError)
    (hs : pr.setupFinished = true) (hc : pr.children = p :: rest)
    (hchk : check_args pr.backend.readFluorescenceSig
      ({"excitation_wavelength", "emission_wavelength", "focal_height", "plate"} :
        Finset String) (k.map Prod.fst) = Except.error er) :
    pr.read_fluorescence exw emw fh k = (Except.error er, []) := by
  simp [PlateReader.read_fluorescence, needSetupFinishedGuard, hs, PlateReader.get_plate, hc,
    hchk]

/-- When reconciliation succeeds and no caller extra collides with an explicitly forwarded
keyword, `read_absorbance` makes exactly one backend call, with the fixed parameters, the
fetched plate, and the caller extras unfiltered (the drop set is empty), and returns the
backend result verbatim. -/
theorem read_absorbance_success (pr : PlateReader) (p : Resource) (rest : List Resource)
    (w : Int) (k : Kwargs) (e : Finset String)
    (hs : pr.setupFinished = true) (hc : pr.children = p :: rest)
    (hchk : check_args pr.backend.readAbsorbanceSig ({"wavelength", "plate"} : Finset String)
      (k.map Prod.fst) = Except.ok e)
    (hdup : duplicateKeyword ({"wavelength", "plate"} : Finset String) k = none) :
    pr.read_absorbance w k =
      (Except.ok (pr.backend.run (BackendCall.readAbsorbance w p k)),
        [BackendCall.readAbsorbance w p k]) := by
  have he : e = ∅ := check_args_ok_empty _ _ _ _ hchk
  subst he
  simp [PlateReader.read_absorbance, needSetupFinishedGuard, hs, PlateReader.get_plate, hc,
    hchk, List.filter_eq_self, hdup]

/-- When reconciliation succeeds and no caller extra collides with an explicitly forwarded
keyword, `read_luminescence` makes exactly one backend call with the caller extras
unfiltered and returns the backend result verbatim. -/
theorem read_luminescence_success (pr : PlateReader) (p : Resource) (rest : List Resource)
    (fh : Rat) (k : Kwargs) (e : Finset String)
    (hs : pr.setupFinished = true) (hc : pr.children = p :: rest)
    (hchk : check_args pr.backend.readLuminescenceSig
      ({"focal_height", "plate"} : Finset String) (k.map Prod.fst) = Except.ok e)
    (hdup : duplicateKeyword ({"focal_height", "plate"} : Finset String) k = none) :
    pr.read_luminescence fh k =
      (Except.ok (pr.backend.run (BackendCall.readLuminescence fh p k)),
        [BackendCall.readLuminescence fh p k]) := by
  have he : e = ∅ := check_args_ok_empty _ _ _ _ hchk
  subst he
  simp [PlateReader.read_luminescence, needSetupFinishedGuard, hs, PlateReader.get_plate, hc,
    hchk, List.filter_eq_self, hdup]

/-- When reconciliation succeeds and no caller extra collides with an explicitly forwarded
keyword, `read_fluorescence` makes exactly one backend call with the caller extras
unfiltered and returns the backend result verbatim. -/
theorem read_fluorescence_success (pr : PlateReader) (p : Resource) (rest : List Resource)
    (exw emw : Int) (fh : Rat) (k : Kwargs) (e : Finset String)
    (hs : pr.setupFinished = true) (hc : pr.children = p :: rest)
    (hchk : check_args pr.backend.readFluorescenceSig
      ({"excitation_wavelength", "emission_wavelength", "focal_height", "plate"} :
        Finset String) (k.map Prod.fst) = Except.ok e)
    (hdup : duplicateKeyword
      ({"excitation_wavelength", "emission_wavelength", "focal_height", "plate"} :
        Finset String) k = none) :
    pr.read_fluorescence exw emw fh k =
      (Except.ok (pr.backend.run (BackendCall.readFluorescence exw emw fh p k)),
        [BackendCall.readFluorescence exw emw fh p k]) := by
  have he : e = ∅ := check_args_ok_empty _ _ _ _ hchk
  subst he
  simp [PlateReader.read_fluorescence, needSetupFinishedGuard, hs, PlateReader.get_plate, hc,
    hchk, List.filter_eq_self, hdup]


/-! ### Reduction of slot assignment -/

/-- Assigning a `Plate` to an empty slot succeeds and stores it as the single child. -/
theorem assign_empty_plate_ok (pr : PlateReader) (r : Resource)
    (hplate : r.isPlate = true) (hempty : pr.children = []) :
    pr.assign_child_resource r = Except.ok { pr with children := [r] } := by
  simp [PlateReader.assign_child_resource, hempty, hplate, storeChild]

/-- Assigning anything to an occupied slot fails with the capacity `ValueError` and leaves
the state unchanged: the capacity check precedes every other step. -/
theorem assign_occupied_err (pr : PlateReader) (r : Resource) (hocc : pr.children ≠ []) :
    pr.assignRun r =
      (pr, some (PRError.valueError "There already is a plate in the plate reader.")) := by
  have hlen : 1 ≤ pr.children.length := List.length_pos.mpr hocc
  simp [PlateReader.assignRun, PlateReader.assign_child_resource, hlen]

/-- Assigning a non-`Plate` resource to an empty slot fails with the type `ValueError` and
leaves the state unchanged. -/
theorem assign_nonplate_empty_err (pr : PlateReader) (r : Resource)
    (hnp : r.isPlate = false) (hempty : pr.children = []) :
    pr.assignRun r = (pr, some (PRError.valueError "The resource must be a Plate.")) := by
  simp [PlateReader.assignRun, PlateReader.assign_child_resource, hempty, hnp]

/-- One façade step preserves the single-slot bound on the number of children. -/
theorem stepOp_preserves_capacity (pr : PlateReader) (op : FacadeOp)
    (h : pr.children.length ≤ 1) : (stepOp pr op).children.length ≤ 1 := by
  cases op with
  | assign r =>
    by_cases hocc : pr.children = []
    · by_cases hp : r.isPlate = true
      · simp [stepOp, PlateReader.assignRun, assign_empty_plate_ok pr r hp hocc, hocc]
      · have hnp : r.isPlate = false := by simpa using hp
        simp [stepOp, assign_nonplate_empty_err pr r hnp hocc, h]
    · simp [stepOp, assign_occupied_err pr r hocc, h]
  | queryPlate => exact h
  | openDoor => exact h
  | closeDoor => exact h
  | readLum fh k => exact h
  | readAbs w k => exact h
  | readFluor a b c d => exact h


/-! ### The claims -/

/-- C1: reconciliation (and hence a read call made with exactly the façade's fixed required
parameters and no extras) fails with the missing-arguments `TypeError` naming the missing
parameters if and only if the signature declares some required parameter (no default, not
the receiver, not in the always-supplied set) absent from the caller extras; this holds for
every signature, including those with a variadic-keyword parameter, and the failure occurs
before any backend invocation. -/
theorem claim1_missing_required_iff (sig : Signature) (dflt : Finset String)
    (kws : List String) (pr : PlateReader) (w : Int) (kwargs : Kwargs)
    (hsetup : pr.setupFinished = true) (hne : pr.children ≠ []) :
    ((∃ m, check_args sig dflt kws = Except.error (PRError.typeErrorMissing m)) ↔
      sig.requiredParams dflt \ kws.toFinset ≠ ∅)
    ∧ (∀ m, check_args sig dflt kws = Except.error (PRError.typeErrorMissing m) →
        m = sig.requiredParams dflt \ kws.toFinset)
    ∧ ((∃ m, (pr.read_absorbance w []).1 = Except.error (PRError.typeErrorMissing m)) ↔
      pr.backend.readAbsorbanceSig.requiredParams ({"wavelength", "plate"} : Finset String) ≠ ∅)
    ∧ (∀ m, check_args pr.backend.readAbsorbanceSig ({"wavelength", "plate"} : Finset String)
          (kwargs.map Prod.fst) = Except.error (PRError.typeErrorMissing m) →
        (pr.read_absorbance w kwargs).2 = []) := by
  obtain ⟨p, rest, hc⟩ := List.exists_cons_of_ne_nil hne
  refine ⟨⟨fun ⟨m, hm⟩ => ((check_args_missing_iff sig dflt kws m).mp hm).2,
      fun h => ⟨_, (check_args_missing_iff sig dflt kws _).mpr ⟨rfl, h⟩⟩⟩,
    fun m hm => ((check_args_missing_iff sig dflt kws m).mp hm).1, ?_, ?_⟩
  · constructor
    · rintro ⟨m, hm⟩
      rcases hchk : check_args pr.backend.readAbsorbanceSig
          ({"wavelength", "plate"} : Finset String) (([] : Kwargs).map Prod.fst) with er | e
      · rw [read_absorbance_check_error pr p rest w [] er hsetup hc hchk] at hm
        simp only at hm
        injection hm with h2
        subst h2
        have := ((check_args_missing_iff _ _ _ m).mp hchk).2
        simpa using this
      · rw [read_absorbance_success pr p rest w [] e hsetup hc hchk rfl] at hm
        simp at hm
    · intro h
      have hmm : pr.backend.readAbsorbanceSig.requiredParams
          ({"wavelength", "plate"} : Finset String) \ ([] : List String).toFinset ≠ ∅ := by
        simpa using h
      have hchk : check_args pr.backend.readAbsorbanceSig
          ({"wavelength", "plate"} : Finset String) (([] : Kwargs).map Prod.fst) =
          Except.error (PRError.typeErrorMissing
            (pr.backend.readAbsorbanceSig.requiredParams
              ({"wavelength", "plate"} : Finset String) \ ([] : List String).toFinset)) :=
        (check_args_missing_iff pr.backend.readAbsorbanceSig
          ({"wavelength", "plate"} : Finset String) [] _).mpr ⟨rfl, hmm⟩
      refine ⟨pr.backend.readAbsorbanceSig.requiredParams
        ({"wavelength", "plate"} : Finset String) \ ([] : List String).toFinset, ?_⟩
      rw [read_absorbance_check_error pr p rest w [] _ hsetup hc hchk]
  · intro m hm
    rw [read_absorbance_check_error pr p rest w kwargs _ hsetup hc hm]

/-- C1 witness: a backend `read_absorbance` requiring an extra parameter `mode`, called with
no extras from a set-up reader holding a plate. -/
theorem claim1_witness :
    prReqEx.setupFinished = true ∧ prReqEx.children ≠ [] ∧
    ((∃ m, check_args sigReqEx ({"wavelength", "plate"} : Finset String) [] =
        Except.error (PRError.typeErrorMissing m)) ↔
      sigReqEx.requiredParams ({"wavelength", "plate"} : Finset String) \
        ([] : List String).toFinset ≠ ∅) :=
  ⟨rfl, by decide,
    (claim1_missing_required_iff sigReqEx ({"wavelength", "plate"} : Finset String) []
      prReqEx 450 [] rfl (by decide)).1⟩

/-- C2 counterexample: a signature with no variadic-keyword parameter requiring `mode`,
called with the single extra key `gain`.  `gain` lies outside the declared parameter names,
yet reconciliation raises the missing-arguments `TypeError` naming `mode` — not the
unexpected-keyword `TypeError` naming `gain` that the claim requires. -/
theorem claim2_counterexample :
    sigReqEx.varsKeyword = ∅
    ∧ (["gain"] : List String).toFinset \
        sigReqEx.declaredNames ({"wavelength", "plate"} : Finset String) ≠ ∅
    ∧ check_args sigReqEx ({"wavelength", "plate"} : Finset String) ["gain"] =
        Except.error (PRError.typeErrorMissing {"mode"}) := by decide

/-- C2 (amended): for every signature without a variadic-keyword parameter and every
caller-extras map containing all required parameters, if the map contains any key outside
the declared parameter names, reconciliation fails with the unexpected-keyword `TypeError`
naming exactly those keys, and the backend is not invoked. -/
theorem claim2_unrecognized_kwargs (sig : Signature) (dflt : Finset String)
    (kws : List String) (pr : PlateReader) (p : Resource) (rest : List Resource)
    (w : Int) (kwargs : Kwargs)
    (hvk : sig.varsKeyword = ∅)
    (hreq : sig.requiredParams dflt \ kws.toFinset = ∅)
    (hex : kws.toFinset \ sig.declaredNames dflt ≠ ∅)
    (hsetup : pr.setupFinished = true) (hc : pr.children = p :: rest) :
    check_args sig dflt kws =
      Except.error (PRError.typeErrorUnexpected (kws.toFinset \ sig.declaredNames dflt))
    ∧ (∀ u, check_args pr.backend.readAbsorbanceSig ({"wavelength", "plate"} : Finset String)
          (kwargs.map Prod.fst) = Except.error (PRError.typeErrorUnexpected u) →
        (pr.read_absorbance w kwargs).2 = []) :=
  ⟨(check_args_unexpected_iff sig dflt kws _).mpr ⟨hreq, hvk, rfl, hex⟩,
    fun _ hu => by rw [read_absorbance_check_error pr p rest w kwargs _ hsetup hc hu]⟩

/-- C2 witness: the scenario from the spec — `read_absorbance(wavelength, plate)` declared
with no extras, called with `gain`. -/
theorem claim2_witness :
    sigAbsEx.varsKeyword = ∅
    ∧ check_args sigAbsEx ({"wavelength", "plate"} : Finset String) ["gain"] =
        Except.error (PRError.typeErrorUnexpected ((["gain"] : List String).toFinset \
          sigAbsEx.declaredNames ({"wavelength", "plate"} : Finset String))) :=
  ⟨by decide,
    (claim2_unrecognized_kwargs sigAbsEx ({"wavelength", "plate"} : Finset String) ["gain"]
      prFullEx (Resource.plate "p") [] 450 [] (by decide) (by decide) (by decide) rfl
      rfl).1⟩

/-- C3 counterexample: a variadic-keyword `read_luminescence` backend with a plate assigned
and setup done, called with the single extra `plate=7`.  Reconciliation passes it through
(`Except.ok ∅`), but the forwarding call at plate_reader.py line 140 passes `plate=plate`
explicitly, so the call expression raises the duplicate-keyword `TypeError` and the backend
trace is empty — the extra is not forwarded to the backend, contradicting the claim. -/
theorem claim3_counterexample :
    prFullEx.backend.readLuminescenceSig.varsKeyword ≠ ∅
    ∧ check_args prFullEx.backend.readLuminescenceSig
        ({"focal_height", "plate"} : Finset String) ["plate"] = Except.ok ∅
    ∧ prFullEx.read_luminescence 1 [("plate", 7)] =
        (Except.error (PRError.typeErrorMultipleValues "plate"), []) :=
  ⟨by decide, by decide, rfl⟩

/-- C3 (amended): for every signature with a variadic-keyword parameter and every
caller-extras map containing all required parameters, reconciliation returns an empty drop
set and never fails with the unexpected-keyword error; every caller-supplied extra is
forwarded to the backend unfiltered provided no extra's name collides with a keyword the
façade itself passes explicitly at the forwarding call (for `read_luminescence`:
`focal_height` and `plate` — only `plate` can occur as a caller extra); a colliding extra
makes the forwarding call itself raise a duplicate-keyword `TypeError` instead, and the
backend is never invoked. -/
theorem claim3_var_keyword_forwards (sig : Signature) (dflt : Finset String)
    (kws : List String) (pr : PlateReader) (p : Resource) (rest : List Resource)
    (fh : Rat) (kwargs : Kwargs)
    (hvk : sig.varsKeyword ≠ ∅)
    (hreq : sig.requiredParams dflt \ kws.toFinset = ∅)
    (hsetup : pr.setupFinished = true) (hc : pr.children = p :: rest)
    (hlvk : pr.backend.readLuminescenceSig.varsKeyword ≠ ∅)
    (hlreq : pr.backend.readLuminescenceSig.requiredParams
      ({"focal_height", "plate"} : Finset String) \ (kwargs.map Prod.fst).toFinset = ∅)
    (hnodup : duplicateKeyword ({"focal_height", "plate"} : Finset String) kwargs = none) :
    check_args sig dflt kws = Except.ok ∅
    ∧ (∀ u, check_args sig dflt kws ≠ Except.error (PRError.typeErrorUnexpected u))
    ∧ pr.read_luminescence fh kwargs =
        (Except.ok (pr.backend.run (BackendCall.readLuminescence fh p kwargs)),
          [BackendCall.readLuminescence fh p kwargs]) := by
  refine ⟨(check_args_ok_iff sig dflt kws ∅).mpr ⟨hreq, rfl, Or.inl hvk⟩,
    fun u hu => hvk ((check_args_unexpected_iff sig dflt kws u).mp hu).2.1, ?_⟩
  have hchk : check_args pr.backend.readLuminescenceSig
      ({"focal_height", "plate"} : Finset String) (kwargs.map Prod.fst) = Except.ok ∅ :=
    (check_args_ok_iff _ _ _ ∅).mpr ⟨hlreq, rfl, Or.inl hlvk⟩
  exact read_luminescence_success pr p rest fh kwargs ∅ hsetup hc hchk hnodup

/-- C3 witness: the spec scenario — `read_luminescence(focal_height, plate, **kwargs)`
called with `settle_time=500`, forwarded untouched. -/
theorem claim3_witness :
    check_args sigKwEx ({"focal_height", "plate"} : Finset String) ["settle_time"] =
      Except.ok ∅
    ∧ (∀ u, check_args sigKwEx ({"focal_height", "plate"} : Finset String) ["settle_time"] ≠
        Except.error (PRError.typeErrorUnexpected u))
    ∧ prFullEx.read_luminescence 1 [("settle_time", 500)] =
        (Except.ok (prFullEx.backend.run (BackendCall.readLuminescence 1
            (Resource.plate "p") [("settle_time", 500)])),
          [BackendCall.readLuminescence 1 (Resource.plate "p") [("settle_time", 500)]]) :=
  claim3_var_keyword_forwards sigKwEx ({"focal_height", "plate"} : Finset String)
    ["settle_time"] prFullEx (Resource.plate "p") [] 1 [("settle_time", 500)]
    (by decide) (by decide) rfl rfl (by decide) (by decide) rfl

/-- C4: assigning a carrier (`Plate`) while the slot is empty succeeds and stores it;
assigning a second carrier while the slot is occupied always fails with the capacity
`ValueError` and leaves the slot's contents unchanged. -/
theorem claim4_slot_assign (pr prOcc : PlateReader) (r r2 : Resource)
    (hplate : r.isPlate = true) (hempty : pr.children = []) (hocc : prOcc.children ≠ []) :
    pr.assign_child_resource r = Except.ok { pr with children := [r] }
    ∧ prOcc.assignRun r2 =
        (prOcc, some (PRError.valueError "There already is a plate in the plate reader.")) :=
  ⟨assign_empty_plate_ok pr r hplate hempty, assign_occupied_err prOcc r2 hocc⟩

/-- C4 witness: assigning a plate to an empty reader, then a second plate to a full one. -/
theorem claim4_witness :
    prEmptyEx.assign_child_resource (Resource.plate "q") =
      Except.ok { prEmptyEx with children := [Resource.plate "q"] }
    ∧ prFullEx.assignRun (Resource.plate "r") =
        (prFullEx,
          some (PRError.valueError "There already is a plate in the plate reader.")) :=
  claim4_slot_assign prEmptyEx prFullEx (Resource.plate "q") (Resource.plate "r")
    rfl rfl (by decide)

/-- C5 counterexample: assigning a non-`Plate` resource while the slot is occupied fails
with the capacity `ValueError`, not the carrier-type `ValueError` the claim requires (the
capacity check runs first); the slot is nonetheless unchanged. -/
theorem claim5_counterexample :
    (Resource.other "lid").isPlate = false
    ∧ prFullEx.assignRun (Resource.other "lid") =
        (prFullEx,
          some (PRError.valueError "There already is a plate in the plate reader."))
    ∧ PRError.valueError "There already is a plate in the plate reader." ≠
        PRError.valueError "The resource must be a Plate." :=
  ⟨rfl, rfl, by decide⟩

/-- C5 (amended): assigning a non-`Plate` resource to an empty slot fails with the
carrier-type `ValueError`; to an occupied slot it fails with the capacity `ValueError`
(the capacity check precedes the type check); in both cases the slot is unchanged. -/
theorem claim5_nonplate_assign (pr : PlateReader) (r : Resource)
    (hnp : r.isPlate = false) :
    (pr.children = [] →
      pr.assignRun r = (pr, some (PRError.valueError "The resource must be a Plate.")))
    ∧ (pr.children ≠ [] →
      pr.assignRun r =
        (pr, some (PRError.valueError "There already is a plate in the plate reader."))) :=
  ⟨fun h => assign_nonplate_empty_err pr r hnp h, fun h => assign_occupied_err pr r h⟩

/-- C5 witness: a non-`Plate` resource rejected by an empty and by an occupied reader. -/
theorem claim5_witness :
    prEmptyEx.assignRun (Resource.other "lid") =
      (prEmptyEx, some (PRError.valueError "The resource must be a Plate."))
    ∧ prFullEx.assignRun (Resource.other "lid") =
        (prFullEx,
          some (PRError.valueError "There already is a plate in the plate reader.")) :=
  ⟨(claim5_nonplate_assign prEmptyEx (Resource.other "lid") rfl).1 rfl,
    (claim5_nonplate_assign prFullEx (Resource.other "lid") rfl).2 (by decide)⟩


/-- C6: after setup, every read operation invoked while the slot is empty fails with
`NoPlateError` and never invokes the backend, whatever keyword arguments the caller
supplies — the carrier fetch precedes argument reconciliation and any backend call. -/
theorem claim6_reads_require_plate (pr : PlateReader) (w exw emw : Int) (fh fh2 : Rat)
    (k1 k2 k3 : Kwargs)
    (hsetup : pr.setupFinished = true) (hempty : pr.children = []) :
    pr.read_absorbance w k1 =
      (Except.error (PRError.noPlateError "There is no plate in the plate reader."), [])
    ∧ pr.read_luminescence fh k2 =
      (Except.error (PRError.noPlateError "There is no plate in the plate reader."), [])
    ∧ pr.read_fluorescence exw emw fh2 k3 =
      (Except.error (PRError.noPlateError "There is no plate in the plate reader."), []) :=
  ⟨read_absorbance_no_plate pr w k1 hsetup hempty,
    read_luminescence_no_plate pr fh k2 hsetup hempty,
    read_fluorescence_no_plate pr exw emw fh2 k3 hsetup hempty⟩

/-- C6 witness: the set-up empty reader rejects all three reads, even with extra kwargs. -/
theorem claim6_witness :
    prEmptyEx.read_absorbance 450 [("gain", 2)] =
      (Except.error (PRError.noPlateError "There is no plate in the plate reader."), [])
    ∧ prEmptyEx.read_luminescence 1 [] =
      (Except.error (PRError.noPlateError "There is no plate in the plate reader."), [])
    ∧ prEmptyEx.read_fluorescence 485 535 1 [] =
      (Except.error (PRError.noPlateError "There is no plate in the plate reader."), []) :=
  claim6_reads_require_plate prEmptyEx 450 485 535 1 1 [("gain", 2)] [] [] rfl rfl

/-- C7 counterexample: a variadic-keyword `read_absorbance` backend with a plate assigned
and setup done, called with the extra `plate=7`.  The lifecycle, carrier, and
reconciliation checks all pass (`check_args` returns `Except.ok ∅`), yet the backend is
never invoked (empty trace) and no result is returned verbatim: the forwarding call at
plate_reader.py line 154 passes `plate=plate` explicitly, so the call expression raises
the duplicate-keyword `TypeError`. -/
theorem claim7_counterexample :
    prKwEx.setupFinished = true
    ∧ prKwEx.children = [Resource.plate "p"]
    ∧ check_args prKwEx.backend.readAbsorbanceSig ({"wavelength", "plate"} : Finset String)
        ["plate"] = Except.ok ∅
    ∧ prKwEx.read_absorbance 450 [("plate", 7)] =
        (Except.error (PRError.typeErrorMultipleValues "plate"), []) :=
  ⟨rfl, rfl, by decide, rfl⟩

/-- C7 (amended): a read operation that passes the lifecycle, carrier and reconciliation
checks, and whose surviving caller extras contain no key that the façade passes explicitly
at the forwarding call (only `plate` can so collide), invokes the backend exactly once,
with the operation's fixed required parameters, the fetched plate, and the caller extras
that survived reconciliation (all of them — the drop set of a successful reconciliation is
empty), and returns the backend's result verbatim; a colliding surviving extra instead
makes the forwarding call raise a duplicate-keyword `TypeError` with no backend
invocation. -/
theorem claim7_forward_verbatim (pr : PlateReader) (p : Resource) (rest : List Resource)
    (w exw emw : Int) (fh fl : Rat) (ka kl kf : Kwargs) (ea el ef : Finset String)
    (hsetup : pr.setupFinished = true) (hc : pr.children = p :: rest)
    (hca : check_args pr.backend.readAbsorbanceSig ({"wavelength", "plate"} : Finset String)
      (ka.map Prod.fst) = Except.ok ea)
    (hcl : check_args pr.backend.readLuminescenceSig
      ({"focal_height", "plate"} : Finset String) (kl.map Prod.fst) = Except.ok el)
    (hcf : check_args pr.backend.readFluorescenceSig
      ({"excitation_wavelength", "emission_wavelength", "focal_height", "plate"} :
        Finset String) (kf.map Prod.fst) = Except.ok ef)
    (hda : duplicateKeyword ({"wavelength", "plate"} : Finset String) ka = none)
    (hdl : duplicateKeyword ({"focal_height", "plate"} : Finset String) kl = none)
    (hdf : duplicateKeyword
      ({"excitation_wavelength", "emission_wavelength", "focal_height", "plate"} :
        Finset String) kf = none) :
    pr.read_absorbance w ka =
      (Except.ok (pr.backend.run (BackendCall.readAbsorbance w p ka)),
        [BackendCall.readAbsorbance w p ka])
    ∧ pr.read_luminescence fl kl =
      (Except.ok (pr.backend.run (BackendCall.readLuminescence fl p kl)),
        [BackendCall.readLuminescence fl p kl])
    ∧ pr.read_fluorescence exw emw fh kf =
      (Except.ok (pr.backend.run (BackendCall.readFluorescence exw emw fh p kf)),
        [BackendCall.readFluorescence exw emw fh p kf]) :=
  ⟨read_absorbance_success pr p rest w ka ea hsetup hc hca hda,
    read_luminescence_success pr p rest fl kl el hsetup hc hcl hdl,
    read_fluorescence_success pr p rest exw emw fh kf ef hsetup hc hcf hdf⟩

/-- C7 witness: a full set-up reader forwarding all three reads, with an extra kwarg on the
variadic-keyword luminescence signature, and returning the backend grid verbatim. -/
theorem claim7_witness :
    prFullEx.read_absorbance 450 [] =
      (Except.ok (prFullEx.backend.run
          (BackendCall.readAbsorbance 450 (Resource.plate "p") [])),
        [BackendCall.readAbsorbance 450 (Resource.plate "p") []])
    ∧ prFullEx.read_luminescence 1 [("settle_time", 500)] =
      (Except.ok (prFullEx.backend.run
          (BackendCall.readLuminescence 1 (Resource.plate "p") [("settle_time", 500)])),
        [BackendCall.readLuminescence 1 (Resource.plate "p") [("settle_time", 500)]])
    ∧ prFullEx.read_fluorescence 485 535 1 [] =
      (Except.ok (prFullEx.backend.run
          (BackendCall.readFluorescence 485 535 1 (Resource.plate "p") [])),
        [BackendCall.readFluorescence 485 535 1 (Resource.plate "p") []]) :=
  claim7_forward_verbatim prFullEx (Resource.plate "p") [] 450 485 535 1 1
    [] [("settle_time", 500)] [] ∅ ∅ ∅ rfl rfl (by decide) (by decide) (by decide)
    rfl rfl rfl

/-- C8: starting from an instrument with an empty slot, after any sequence of façade
operations (assignments, carrier queries, opens, closes, reads) the slot holds exactly 0
or 1 carriers. -/
theorem claim8_capacity_invariant (pr : PlateReader) (ops : List FacadeOp)
    (hempty : pr.children = []) :
    (ops.foldl stepOp pr).children.length = 0 ∨
      (ops.foldl stepOp pr).children.length = 1 := by
  have key : ∀ (l : List FacadeOp) (q : PlateReader), q.children.length ≤ 1 →
      (l.foldl stepOp q).children.length ≤ 1 := by
    intro l
    induction l with
    | nil => exact fun q hq => hq
    | cons op t ih => exact fun q hq => ih _ (stepOp_preserves_capacity q op hq)
  have h := key ops pr (by simp [hempty])
  omega

/-- C8 witness: the concrete operation sequence `opsEx` run from the empty reader. -/
theorem claim8_witness :
    (opsEx.foldl stepOp prEmptyEx).children.length = 0 ∨
      (opsEx.foldl stepOp prEmptyEx).children.length = 1 :=
  claim8_capacity_invariant prEmptyEx opsEx rfl

/-- C9: reconciliation is order-independent — two caller-extras key lists with the same key
set (in any iteration order) give the same outcome: same error kind with the same named
sets, or the same drop set. -/
theorem claim9_order_independent (sig : Signature) (dflt : Finset String)
    (kws1 kws2 : List String) (h : kws1.toFinset = kws2.toFinset) :
    check_args sig dflt kws1 = check_args sig dflt kws2 := by
  simp only [check_args, h]

/-- C9 witness: two permutations of the same key set reconcile identically. -/
theorem claim9_witness :
    check_args sigReqEx (∅ : Finset String) ["gain", "mode"] =
      check_args sigReqEx (∅ : Finset String) ["mode", "gain"] :=
  claim9_order_independent sigReqEx ∅ ["gain", "mode"] ["mode", "gain"] (by decide)

/-- C10 (implicit): `open` and `close` are not guarded by the setup-completion lifecycle
check that protects the three reads — in every state, including one where setup has not
completed and the slot is empty, they proceed directly to the backend's corresponding
operation: no `LifecycleNotReadyError`, no carrier fetch, no argument reconciliation, and
exactly the one backend invocation. -/
theorem claim10_open_close_pass_through (pr : PlateReader) :
    pr.openOp = (Except.ok (), [BackendCall.openCall])
    ∧ pr.closeOp = (Except.ok (), [BackendCall.closeCall]) :=
  ⟨rfl, rfl⟩

end PlateReading
